import Mathlib

/-!
Shallow embedding of `frontend/src/components/FeatureAnalysis.tsx`
(repository RyanKhanRK/senior_project, project mlflow-feature-analysis).

The file is a single React function component.  We model:
  * the component state (the `useState` hooks) as a record `ComponentState`;
  * each event handler (`fetchRuns`, `handleFileUpload`, `handleComputeShap`,
    the WebSocket `onmessage` / `onerror` / `onclose` handlers installed by
    `connectWebSocket`, `fetchShapResults`, `downloadResults`) as a function
    from the current state (plus the handler's inputs and, for async
    handlers, the network response it observed) to the new state together
    with the list of network `Effect`s the handler initiates;
  * the JSX returned by the component as a pure view function `render`.

JavaScript `number` values appearing in JSON payloads are modelled as `Rat`
(JSON.parse never yields NaN or infinities); the one arithmetic expression
whose IEEE semantics matters — the importance-bar width division in the
feature-details table — is modelled with an explicit `JSNum` type carrying
NaN and the infinities, with division and `Math.max` following JavaScript.
-/

/-- A JSON value, used for payloads whose TypeScript type is `any`
(the `preview` rows of an upload response, the download body). -/
inductive Json where
  | null : Json
  | bool (b : Bool) : Json
  | num (q : Rat) : Json
  | str (s : String) : Json
  | arr (xs : List Json) : Json
  | obj (fields : List (String × Json)) : Json
deriving Repr

/-- A JavaScript number: a finite value, an infinity, or NaN.  Used only
where the source can produce a non-finite value (the table width). -/
inductive JSNum where
  | fin (q : Rat) : JSNum
  | posInf : JSNum
  | negInf : JSNum
  | nan : JSNum
deriving Repr, DecidableEq

namespace JSNum

/-- JavaScript division on numbers (sign of zero ignored: the dividends in
the source come from JSON, which has no distinguished negative zero). -/
def jsDiv : JSNum → JSNum → JSNum
  | fin a, fin b =>
    if b ≠ 0 then fin (a / b)
    else if a = 0 then nan
    else if a > 0 then posInf
    else negInf
  | nan, _ => nan
  | _, nan => nan
  | posInf, fin _ => posInf
  | negInf, fin _ => negInf
  | fin _, posInf => fin 0
  | fin _, negInf => fin 0
  | posInf, posInf => nan
  | posInf, negInf => nan
  | negInf, posInf => nan
  | negInf, negInf => nan

/-- Multiplication by the literal 100, as in `(x / m) * 100`. -/
def mul100 : JSNum → JSNum
  | fin q => fin (q * 100)
  | posInf => posInf
  | negInf => negInf
  | nan => nan

/-- `Math.max(...xs)` over finite arguments: `-Infinity` on the empty
spread, otherwise the maximum. -/
def jsMax : List Rat → JSNum
  | [] => negInf
  | x :: xs => fin (xs.foldl max x)

/-- Whether a JavaScript number is finite (`Number.isFinite`). -/
def isFinite : JSNum → Bool
  | fin _ => true
  | _ => false

end JSNum

/-- `interface Run` of the source. -/
structure Run where
  run_id : String
  experiment_id : String
  status : String
  start_time : String
deriving Repr, DecidableEq

/-- `interface UploadData` of the source. -/
structure UploadData where
  filename : String
  shape : Rat × Rat
  columns : List String
  preview : List Json
deriving Repr

/-- One entry of `feature_importance` in `interface ShapResults`. -/
structure FeatureImportance where
  feature : String
  importance : Rat
deriving Repr, DecidableEq

/-- `interface ShapResults` of the source. -/
structure ShapResults where
  shap_values : List (List Rat)
  features : List String
  feature_importance : List FeatureImportance
  model_id : String
  dataset_shape : Rat × Rat
  computed_at : String
deriving Repr, DecidableEq

/-- `interface ProgressMessage` of the source: `error?` is an optional
field, modelled as `Option String` (`none` = absent). -/
structure ProgressMessage where
  status : String
  progress : Rat
  error : Option String
deriving Repr, DecidableEq

/-- The component state: one field per `useState` hook of
`FeatureAnalysis` (the two `useRef`s hold DOM/WebSocket handles and are
modelled through the handlers' explicit inputs and effects). -/
structure ComponentState where
  runs : List Run
  selectedRun : String
  uploadedData : Option UploadData
  shapResults : Option ShapResults
  loading : Bool
  progress : Rat
  progressStatus : String
  error : Option String
deriving Repr

/-- The initial state set by the `useState` initialisers. -/
def initialState : ComponentState :=
  { runs := []
    selectedRun := ""
    uploadedData := none
    shapResults := none
    loading := false
    progress := 0
    progressStatus := ""
    error := none }

/-- JavaScript truthiness of an optional string: an absent field and the
empty string are falsy. -/
def truthyStr : Option String → Bool
  | none => false
  | some s => s ≠ ""

/-- `API_URL`: `import.meta.env.VITE_API_URL || 'http://localhost:8000'`;
we take the default value (the env override only changes the prefix). -/
def API_URL : String := "http://localhost:8000"

/-- `WS_URL`: `import.meta.env.VITE_API_WS_URL || 'ws://localhost:8000'`. -/
def WS_URL : String := "ws://localhost:8000"

/-- A network operation a handler initiates.  `post` carries the form-data
fields (name, value) in append order; files are identified by name. -/
inductive Effect where
  | post (url : String) (fields : List (String × String)) : Effect
  | get (url : String) : Effect
  | openWS (url : String) : Effect
deriving Repr, DecidableEq

/-- Whether an effect opens a WebSocket. -/
def Effect.isOpenWS : Effect → Bool
  | .openWS _ => true
  | _ => false

/-- Whether an effect is an HTTP POST. -/
def Effect.isPost : Effect → Bool
  | .post _ _ => true
  | _ => false

/-- Outcome of a `fetch` whose `response.ok` the source checks:
`ok` = 2xx with the body parsed, `notOk` = HTTP failure with its
`statusText`, `exn` = `fetch` or `response.json()` threw (the string is
the stringified error interpolated into the template literal). -/
inductive FetchResult (α : Type) where
  | ok (value : α) : FetchResult α
  | notOk (statusText : String) : FetchResult α
  | exn (msg : String) : FetchResult α
deriving Repr, DecidableEq

/-- `fetchRuns`: GET `/api/runs`, store `data.runs || []`, and select the
first run when the list is non-empty.  The response is modelled as the
parsed `runs` array (`Except` error = `fetch`/`json` threw). -/
def fetchRuns (s : ComponentState) (resp : Except String (List Run)) :
    ComponentState × List Effect :=
  match resp with
  | .ok rs =>
    (match rs with
     | [] => ({ s with runs := [] }, [Effect.get (API_URL ++ "/api/runs")])
     | r :: _ =>
       ({ s with runs := rs, selectedRun := r.run_id },
        [Effect.get (API_URL ++ "/api/runs")]))
  | .error m =>
    ({ s with error := some ("Failed to fetch runs: " ++ m) },
     [Effect.get (API_URL ++ "/api/runs")])

/-- `handleFileUpload`: `file` is `e.target.files?.[0]` (its name stands
  for the file).  No file → early return, no request.  Otherwise clear the
error, POST the form data to `/api/upload`; a non-ok response throws
`Upload failed: ...`, and any caught error sets the error banner.
`uploadedData` is replaced only on the `ok` branch. -/
def handleFileUpload (s : ComponentState) (file : Option String)
    (resp : FetchResult UploadData) : ComponentState × List Effect :=
  match file with
  | none => (s, [])
  | some f =>
    let eff := [Effect.post (API_URL ++ "/api/upload") [("file", f)]]
    match resp with
    | .ok data => ({ s with error := none, uploadedData := some data }, eff)
    | .notOk st =>
      ({ s with error := some ("File upload failed: Error: Upload failed: " ++ st) }, eff)
    | .exn m => ({ s with error := some ("File upload failed: " ++ m) }, eff)

/-- `connectWebSocket` assigns `wsRef.current = new WebSocket(wsUrl)`:
modelled as the effect of opening `WS_URL ++ "/ws/shap/" ++ computationId`. -/
def connectWebSocket (computationId : String) : Effect :=
  Effect.openWS (WS_URL ++ "/ws/shap/" ++ computationId)

/-- `handleComputeShap`: guard on `!selectedRun || !uploadedData ||
!fileInputRef.current?.files?.[0]` (empty string and `null` are falsy);
on the valid path clear the error, set `loading`, reset `progress`, POST
`run_id` and the file to `/api/shap/compute`, and on an ok response open
the WebSocket for the returned `computation_id`.  `resp` carries that
`computation_id`. -/
def handleComputeShap (s : ComponentState) (file : Option String)
    (resp : FetchResult String) : ComponentState × List Effect :=
  if s.selectedRun = "" || s.uploadedData.isNone || file.isNone then
    ({ s with error := some "Please select a run and upload data" }, [])
  else
    match file with
    | none => (s, [])  -- unreachable: the guard already returned
    | some f =>
      let s1 := { s with error := none, loading := true, progress := 0 }
      let post := Effect.post (API_URL ++ "/api/shap/compute")
        [("run_id", s.selectedRun), ("file", f)]
      match resp with
      | .ok cid => (s1, [post, connectWebSocket cid])
      | .notOk st =>
        ({ s1 with
            error := some ("SHAP computation failed: Error: Computation failed: " ++ st),
            loading := false }, [post])
      | .exn m =>
        ({ s1 with
            error := some ("SHAP computation failed: " ++ m),
            loading := false }, [post])

/-- The `onmessage` handler installed by `connectWebSocket`.  A frame is
`some m` when `JSON.parse(event.data)` yields a progress message, `none`
when the payload is not valid JSON (the parse throws and the catch only
logs).  On a parsed message: store `progress` and `status`; if
`message.error` is truthy set the error and stop loading; if the status
is `'Complete'` call `fetchShapResults(computationId)`, which performs
GET `/api/shap/results/{computationId}`. -/
def wsOnMessage (computationId : String) (s : ComponentState)
    (frame : Option ProgressMessage) : ComponentState × List Effect :=
  match frame with
  | none => (s, [])
  | some m =>
    let s1 := { s with progress := m.progress, progressStatus := m.status }
    let s2 :=
      if truthyStr m.error then { s1 with error := m.error, loading := false }
      else s1
    if m.status = "Complete" then
      (s2, [Effect.get (API_URL ++ "/api/shap/results/" ++ computationId)])
    else (s2, [])

/-- The `onerror` handler installed by `connectWebSocket`. -/
def wsOnError (s : ComponentState) : ComponentState × List Effect :=
  ({ s with error := some "WebSocket connection error", loading := false }, [])

/-- The `onclose` handler installed by `connectWebSocket`: it only logs. -/
def wsOnClose (s : ComponentState) : ComponentState × List Effect :=
  (s, [])

/-- `fetchShapResults` continuation on its response (the GET effect itself
is emitted by `wsOnMessage`, which invokes it): store the parsed body as
`shapResults` and stop loading, or set the error banner and stop loading.
The source never checks `response.ok` here, so `Except` only separates a
thrown `fetch`/`json` from a parsed body. -/
def fetchShapResults (s : ComponentState)
    (resp : Except String ShapResults) : ComponentState :=
  match resp with
  | .ok d => { s with shapResults := some d, loading := false }
  | .error m =>
    { s with error := some ("Failed to fetch results: " ++ m), loading := false }

/-- `downloadResults`: early return when `shapResults` is null, otherwise
GET `/api/shap/download/{selectedRun}` and save the body client-side (the
Blob/anchor dance has no component-state effect); a caught error sets the
banner. -/
def downloadResults (s : ComponentState) (resp : Except String Json) :
    ComponentState × List Effect :=
  match s.shapResults with
  | none => (s, [])
  | some _ =>
    let eff := [Effect.get (API_URL ++ "/api/shap/download/" ++ s.selectedRun)]
    match resp with
    | .ok _ => (s, eff)
    | .error m => ({ s with error := some ("Download failed: " ++ m) }, eff)

/-! ## The rendered view

The JSX returned by the component, as a pure function of the state.  Only
the data-bearing parts the claims are about are modelled; static markup is
omitted. -/

/-- One `<tr>` of the feature-details table: `#{idx + 1}`, the feature
name, the importance-fill width `(importance / Math.max(...importances)) *
100` (a percentage, possibly non-finite), and the numeric score shown. -/
structure TableRow where
  rank : Nat
  feature : String
  fillWidthPct : JSNum
  importance : Rat
deriving Repr, DecidableEq

/-- The `Plot` trace plus the feature-details table rendered from a
non-null `shapResults`. -/
structure ResultsView where
  chartX : List Rat
  chartY : List String
  chartType : String
  orientation : String
  table : List TableRow
deriving Repr, DecidableEq

/-- The progress section shown while `loading`: the `progress-fill` width
`${progress}%`, and the two `<span>`s `{progress}%` and
`{progressStatus}`. -/
structure ProgressView where
  fillWidthPct : Rat
  textPct : Rat
  textStatus : String
deriving Repr, DecidableEq

/-- The data-bearing parts of the component's JSX. -/
structure View where
  errorBanner : Option String
  computeDisabled : Bool
  progressSection : Option ProgressView
  results : Option ResultsView
deriving Repr, DecidableEq

/-- The chart and table rendered from a `ShapResults` (the
`visualization-panel` branch taken when `shapResults` is non-null). -/
def renderResults (r : ShapResults) : ResultsView :=
  { chartX := r.feature_importance.map (fun f => f.importance)
    chartY := r.feature_importance.map (fun f => f.feature)
    chartType := "bar"
    orientation := "h"
    table := r.feature_importance.mapIdx (fun idx item =>
      { rank := idx + 1
        feature := item.feature
        fillWidthPct :=
          JSNum.mul100 (JSNum.jsDiv (JSNum.fin item.importance)
            (JSNum.jsMax (r.feature_importance.map (fun f => f.importance))))
        importance := item.importance }) }

/-- The component's render: the error banner shows when `error` is truthy,
the compute button is disabled by `!selectedRun || !uploadedData ||
loading`, the progress section shows while `loading`, and the results
panel shows iff `shapResults` is non-null. -/
def render (s : ComponentState) : View :=
  { errorBanner := if truthyStr s.error then s.error else none
    computeDisabled := s.selectedRun = "" || s.uploadedData.isNone || s.loading
    progressSection :=
      if s.loading then
        some { fillWidthPct := s.progress, textPct := s.progress,
               textStatus := s.progressStatus }
      else none
    results := s.shapResults.map renderResults }

/-! ## Sample values used by witnesses -/

/-- A sample parsed upload response. -/
def sampleUpload : UploadData :=
  { filename := "data.csv", shape := (100, 5), columns := ["a", "b"], preview := [] }

/-- A sample parsed SHAP results body. -/
def sampleResults : ShapResults :=
  { shap_values := [[1, 2]]
    features := ["age", "income"]
    feature_importance := [⟨"age", 3⟩, ⟨"income", 1⟩]
    model_id := "model-1"
    dataset_shape := (100, 5)
    computed_at := "2024-01-01T00:00:00Z" }

/-- A SHAP results body whose importances are all zero. -/
def zeroResults : ShapResults :=
  { shap_values := [[0]]
    features := ["age", "income"]
    feature_importance := [⟨"age", 0⟩, ⟨"income", 0⟩]
    model_id := "model-1"
    dataset_shape := (100, 5)
    computed_at := "2024-01-01T00:00:00Z" }

/-! ## Claims -/

/-- C5: incoming frames are handled only by parsing them as JSON text:
when the payload is not valid JSON the `onmessage` handler catches the
parse failure and leaves the whole component state unchanged, initiating
nothing. -/
theorem c5_invalid_frame_leaves_state_unchanged
    (cid : String) (s : ComponentState) :
    wsOnMessage cid s none = (s, []) := rfl

/-- C8: invoking Compute SHAP with no selected run, no uploaded data, or
no file in the input sets the error to 'Please select a run and upload
data' and returns: no network effect, and every other state field
(loading, progress, shapResults, ...) unchanged. -/
theorem c8_compute_guard (s : ComponentState) (file : Option String)
    (resp : FetchResult String)
    (h : s.selectedRun = "" ∨ s.uploadedData = none ∨ file = none) :
    handleComputeShap s file resp
      = ({ s with error := some "Please select a run and upload data" }, []) := by
  rcases h with h | h | h <;> simp [handleComputeShap, h]

/-- Witness for C8 at a concrete input. -/
theorem c8_compute_guard_witness :
    handleComputeShap initialState none (FetchResult.exn "boom")
      = ({ initialState with error := some "Please select a run and upload data" }, []) :=
  c8_compute_guard initialState none (FetchResult.exn "boom") (Or.inl rfl)

/-- C9: upload is atomic in `uploadedData`: on a non-ok response or a
thrown error only the error banner changes and `uploadedData` keeps its
previous value; on a parsed successful body it is replaced. -/
theorem c9_upload_atomic (s : ComponentState) (f st m : String)
    (d : UploadData) :
    handleFileUpload s (some f) (FetchResult.notOk st)
      = ({ s with error := some ("File upload failed: Error: Upload failed: " ++ st) },
         [Effect.post (API_URL ++ "/api/upload") [("file", f)]])
    ∧ handleFileUpload s (some f) (FetchResult.exn m)
      = ({ s with error := some ("File upload failed: " ++ m) },
         [Effect.post (API_URL ++ "/api/upload") [("file", f)]])
    ∧ handleFileUpload s (some f) (FetchResult.ok d)
      = ({ s with error := none, uploadedData := some d },
         [Effect.post (API_URL ++ "/api/upload") [("file", f)]]) :=
  ⟨rfl, rfl, rfl⟩

/-- C4: no reconnection or retry on socket failure: the `onerror` handler
only sets the error to 'WebSocket connection error' and clears `loading`,
the `onclose` handler does nothing, and no handler other than
`handleComputeShap` ever emits an open-WebSocket effect. -/
theorem c4_no_reconnect (s : ComponentState) :
    wsOnError s
      = ({ s with error := some "WebSocket connection error", loading := false }, [])
    ∧ wsOnClose s = (s, [])
    ∧ (∀ (cid : String) (frame : Option ProgressMessage),
        ((wsOnMessage cid s frame).2.all fun e => !e.isOpenWS) = true)
    ∧ (∀ resp : Except String (List Run),
        ((fetchRuns s resp).2.all fun e => !e.isOpenWS) = true)
    ∧ (∀ (f : Option String) (resp : FetchResult UploadData),
        ((handleFileUpload s f resp).2.all fun e => !e.isOpenWS) = true)
    ∧ (∀ resp : Except String Json,
        ((downloadResults s resp).2.all fun e => !e.isOpenWS) = true) := by
  refine ⟨rfl, rfl, ?_, ?_, ?_, ?_⟩
  · intro cid frame
    cases frame with
    | none => rfl
    | some m =>
      by_cases hs : m.status = "Complete" <;>
        cases h : truthyStr m.error <;>
          simp [wsOnMessage, hs, h, Effect.isOpenWS]
  · intro resp
    cases resp with
    | ok rs => cases rs <;> rfl
    | error m => rfl
  · intro f resp
    cases f with
    | none => rfl
    | some f => cases resp <;> rfl
  · intro resp
    cases h : s.shapResults <;> cases resp <;> simp [downloadResults, h, Effect.isOpenWS]

/-- C1 counterexample: a well-formed message whose `error` field is absent
does NOT overwrite the error state with that (absent) field: the stale
error survives, so the listener does not unconditionally forward all three
fields. -/
theorem c1_counterexample :
    (wsOnMessage "c" { initialState with error := some "stale" }
        (some { status := "Computing", progress := 42, error := none })).1.error
      = some "stale"
    ∧ (some "stale" : Option String)
        ≠ ({ status := "Computing", progress := 42, error := none } : ProgressMessage).error :=
  ⟨rfl, by simp⟩

/-- C1 (amended): the listener always forwards `progress` and `status`
into state; the `error` field is forwarded (clearing `loading`) only when
it is truthy (present and non-empty), and otherwise the error state and
`loading` are left unchanged. -/
theorem c1_message_forwarding (cid : String) (s : ComponentState)
    (m : ProgressMessage) :
    (wsOnMessage cid s (some m)).1.progress = m.progress
    ∧ (wsOnMessage cid s (some m)).1.progressStatus = m.status
    ∧ (wsOnMessage cid s (some m)).1.error
        = (if truthyStr m.error then m.error else s.error)
    ∧ (wsOnMessage cid s (some m)).1.loading
        = (if truthyStr m.error then false else s.loading) := by
  cases h : truthyStr m.error <;>
    by_cases hs : m.status = "Complete" <;>
      simp [wsOnMessage, h, hs]

/-- C2: on a message whose status is 'Complete' the handler fetches the
results of the same computation id via GET `/api/shap/results/{id}`; the
fetch continuation stores the parsed body as `shapResults` and clears
`loading`, after which the render shows the results chart and table. -/
theorem c2_complete_fetches_results (s : ComponentState) (cid : String)
    (m : ProgressMessage) (d : ShapResults) (h : m.status = "Complete") :
    Effect.get (API_URL ++ "/api/shap/results/" ++ cid) ∈ (wsOnMessage cid s (some m)).2
    ∧ (fetchShapResults (wsOnMessage cid s (some m)).1 (Except.ok d)).shapResults = some d
    ∧ (fetchShapResults (wsOnMessage cid s (some m)).1 (Except.ok d)).loading = false
    ∧ (render (fetchShapResults (wsOnMessage cid s (some m)).1 (Except.ok d))).results
        = some (renderResults d) := by
  cases he : truthyStr m.error <;>
    simp [wsOnMessage, fetchShapResults, render, h, he]

/-- Witness for C2 at a concrete input. -/
theorem c2_complete_fetches_results_witness :
    Effect.get (API_URL ++ "/api/shap/results/" ++ "abc")
        ∈ (wsOnMessage "abc" initialState
            (some { status := "Complete", progress := 100, error := none })).2
    ∧ (fetchShapResults (wsOnMessage "abc" initialState
            (some { status := "Complete", progress := 100, error := none })).1
          (Except.ok sampleResults)).shapResults = some sampleResults
    ∧ (fetchShapResults (wsOnMessage "abc" initialState
            (some { status := "Complete", progress := 100, error := none })).1
          (Except.ok sampleResults)).loading = false
    ∧ (render (fetchShapResults (wsOnMessage "abc" initialState
            (some { status := "Complete", progress := 100, error := none })).1
          (Except.ok sampleResults))).results = some (renderResults sampleResults) :=
  c2_complete_fetches_results initialState "abc"
    { status := "Complete", progress := 100, error := none } sampleResults rfl

/-- C3: with a selected run, uploaded data and a file in the input, the
compute handler issues exactly one POST, to `/api/shap/compute` carrying
`run_id` and the file, then opens a WebSocket to
`/ws/shap/{computation_id}` with the id from the response; and the runs
list, upload, results and download handlers address `/api/runs`,
`/api/upload`, `/api/shap/results/{id}` and
`/api/shap/download/{selectedRun}` respectively. -/
theorem c3_endpoints (s : ComponentState) (u : UploadData) (f cid : String)
    (h1 : s.selectedRun ≠ "") (h2 : s.uploadedData = some u) :
    (handleComputeShap s (some f) (FetchResult.ok cid)).2
      = [Effect.post (API_URL ++ "/api/shap/compute")
           [("run_id", s.selectedRun), ("file", f)],
         Effect.openWS (WS_URL ++ "/ws/shap/" ++ cid)]
    ∧ ((handleComputeShap s (some f) (FetchResult.ok cid)).2.countP
         fun e => e.isPost) = 1
    ∧ (∀ resp : Except String (List Run),
        (fetchRuns s resp).2 = [Effect.get (API_URL ++ "/api/runs")])
    ∧ (∀ resp : FetchResult UploadData,
        (handleFileUpload s (some f) resp).2
          = [Effect.post (API_URL ++ "/api/upload") [("file", f)]])
    ∧ (∀ m : ProgressMessage, m.status = "Complete" →
        (wsOnMessage cid s (some m)).2
          = [Effect.get (API_URL ++ "/api/shap/results/" ++ cid)])
    ∧ (∀ (r : ShapResults) (resp : Except String Json), s.shapResults = some r →
        (downloadResults s resp).2
          = [Effect.get (API_URL ++ "/api/shap/download/" ++ s.selectedRun)]) := by
  refine ⟨?_, ?_, ?_, ?_, ?_, ?_⟩
  · simp [handleComputeShap, h1, h2, connectWebSocket]
  · simp [handleComputeShap, h1, h2, connectWebSocket, Effect.isPost, List.countP_cons]
  · intro resp
    cases resp with
    | ok rs => cases rs <;> rfl
    | error m => rfl
  · intro resp
    cases resp <;> rfl
  · intro m hm
    cases he : truthyStr m.error <;> simp [wsOnMessage, hm, he]
  · intro r resp hr
    cases resp <;> simp [downloadResults, hr]

/-- Witness for C3 at a concrete input. -/
theorem c3_endpoints_witness :
    (handleComputeShap
        { initialState with selectedRun := "run-1", uploadedData := some sampleUpload }
        (some "data.csv") (FetchResult.ok "abc")).2
      = [Effect.post (API_URL ++ "/api/shap/compute")
           [("run_id", "run-1"), ("file", "data.csv")],
         Effect.openWS (WS_URL ++ "/ws/shap/" ++ "abc")] :=
  (c3_endpoints
    { initialState with selectedRun := "run-1", uploadedData := some sampleUpload }
    sampleUpload "data.csv" "abc" (by decide) rfl).1

/-- C6: while `loading` is true the rendered progress section's fill width
and text show exactly the `progress` value and `status` string of the most
recently received message, and a newly started computation resets
`progress` to 0 with `loading` set. -/
theorem c6_progress_streamed (s : ComponentState) (cid : String)
    (m : ProgressMessage) (u : UploadData) (f c : String)
    (h1 : s.selectedRun ≠ "") (h2 : s.uploadedData = some u) :
    (render (wsOnMessage cid s (some m)).1).progressSection
      = (if (wsOnMessage cid s (some m)).1.loading then
           some { fillWidthPct := m.progress, textPct := m.progress,
                  textStatus := m.status }
         else none)
    ∧ (handleComputeShap s (some f) (FetchResult.ok c)).1.progress = 0
    ∧ (handleComputeShap s (some f) (FetchResult.ok c)).1.loading = true := by
  refine ⟨?_, ?_, ?_⟩
  · cases he : truthyStr m.error <;>
      by_cases hs : m.status = "Complete" <;>
        simp [wsOnMessage, render, he, hs]
  · simp [handleComputeShap, h1, h2]
  · simp [handleComputeShap, h1, h2]

/-- Witness for C6 at a concrete input. -/
theorem c6_progress_streamed_witness :
    (render (wsOnMessage "abc"
        { initialState with selectedRun := "run-1",
                            uploadedData := some sampleUpload, loading := true }
        (some { status := "Computing SHAP", progress := 55, error := none })).1).progressSection
      = (if (wsOnMessage "abc"
              { initialState with selectedRun := "run-1",
                                  uploadedData := some sampleUpload, loading := true }
              (some { status := "Computing SHAP", progress := 55, error := none })).1.loading then
           some { fillWidthPct := 55, textPct := 55, textStatus := "Computing SHAP" }
         else none)
    ∧ (handleComputeShap
        { initialState with selectedRun := "run-1",
                            uploadedData := some sampleUpload, loading := true }
        (some "data.csv") (FetchResult.ok "abc")).1.progress = 0 :=
  ⟨(c6_progress_streamed
      { initialState with selectedRun := "run-1",
                          uploadedData := some sampleUpload, loading := true }
      "abc" { status := "Computing SHAP", progress := 55, error := none }
      sampleUpload "data.csv" "abc" (by decide) rfl).1,
   (c6_progress_streamed
      { initialState with selectedRun := "run-1",
                          uploadedData := some sampleUpload, loading := true }
      "abc" { status := "Computing SHAP", progress := 55, error := none }
      sampleUpload "data.csv" "abc" (by decide) rfl).2.1⟩

/-- Helper: a left fold of `max` over an all-zero list of rationals,
started at 0, is 0. -/
theorem foldl_max_all_zero (xs : List Rat) (h : ∀ x ∈ xs, x = 0) :
    xs.foldl max 0 = 0 := by
  induction xs with
  | nil => rfl
  | cons y ys ih =>
    have hy : y = 0 := h y (by simp)
    have : max (0 : Rat) y = 0 := by simp [hy]
    simpa [List.foldl, this] using ih fun x hx => h x (by simp [hx])

/-- Helper: `Math.max` over a non-empty all-zero list is 0. -/
theorem jsMax_all_zero (l : List Rat) (hne : l ≠ []) (h : ∀ x ∈ l, x = 0) :
    JSNum.jsMax l = JSNum.fin 0 := by
  cases l with
  | nil => exact absurd rfl hne
  | cons x xs =>
    have hx : x = 0 := h x (by simp)
    have hxs : xs.foldl max x = 0 := by
      rw [hx]; exact foldl_max_all_zero xs fun y hy => h y (by simp [hy])
    simp [JSNum.jsMax, hxs]

/-- C7: for a non-null `shapResults` the chart plots exactly the
importances against the feature names of `feature_importance` in order,
and the table lists the same entries in the same order with rank equal to
position + 1. -/
theorem c7_chart_table_faithful (s : ComponentState) (r : ShapResults)
    (h : s.shapResults = some r) :
    (render s).results = some (renderResults r)
    ∧ (renderResults r).chartX = r.feature_importance.map (fun fi => fi.importance)
    ∧ (renderResults r).chartY = r.feature_importance.map (fun fi => fi.feature)
    ∧ (renderResults r).table.length = r.feature_importance.length
    ∧ ∀ (i : Nat) (hi : i < r.feature_importance.length),
        ((renderResults r).table[i]?.map TableRow.rank) = some (i + 1)
        ∧ ((renderResults r).table[i]?.map TableRow.feature)
            = some (r.feature_importance.get ⟨i, hi⟩).feature
        ∧ ((renderResults r).table[i]?.map TableRow.importance)
            = some (r.feature_importance.get ⟨i, hi⟩).importance := by
  refine ⟨by simp [render, h], rfl, rfl, by simp [renderResults], ?_⟩
  intro i hi
  have hi2 : i < (renderResults r).table.length := by
    simpa [renderResults] using hi
  have hrow : (renderResults r).table[i]
      = { rank := i + 1
          feature := (r.feature_importance.get ⟨i, hi⟩).feature
          fillWidthPct :=
            JSNum.mul100 (JSNum.jsDiv
              (JSNum.fin (r.feature_importance.get ⟨i, hi⟩).importance)
              (JSNum.jsMax (r.feature_importance.map (fun f => f.importance))))
          importance := (r.feature_importance.get ⟨i, hi⟩).importance } := by
    simp only [renderResults]
    exact List.get_mapIdx r.feature_importance _ i hi
  rw [List.getElem?_eq_getElem hi2]
  simp [hrow]

/-- Witness for C7 at a concrete input. -/
theorem c7_chart_table_faithful_witness :
    (render { initialState with shapResults := some sampleResults }).results
      = some (renderResults sampleResults)
    ∧ (renderResults sampleResults).chartX
        = sampleResults.feature_importance.map (fun fi => fi.importance) :=
  ⟨(c7_chart_table_faithful { initialState with shapResults := some sampleResults }
      sampleResults rfl).1,
   (c7_chart_table_faithful { initialState with shapResults := some sampleResults }
      sampleResults rfl).2.1⟩

/-- C10: the importance-bar width has no guard against an all-zero
importance column: every table row rendered from such results has width
`(0 / Math.max(0, ..., 0)) * 100 = NaN`, which is not a finite number. -/
theorem c10_zero_importance_width_nan (r : ShapResults)
    (h0 : ∀ fi ∈ r.feature_importance, fi.importance = 0)
    (i : Nat) (hi : i < (renderResults r).table.length) :
    ((renderResults r).table.get ⟨i, hi⟩).fillWidthPct = JSNum.nan
    ∧ (((renderResults r).table.get ⟨i, hi⟩).fillWidthPct.isFinite) = false := by
  have hi2 : i < r.feature_importance.length := by
    simpa [renderResults] using hi
  have hrow : (renderResults r).table.get ⟨i, hi⟩
      = { rank := i + 1
          feature := (r.feature_importance.get ⟨i, hi2⟩).feature
          fillWidthPct :=
            JSNum.mul100 (JSNum.jsDiv
              (JSNum.fin (r.feature_importance.get ⟨i, hi2⟩).importance)
              (JSNum.jsMax (r.feature_importance.map (fun f => f.importance))))
          importance := (r.feature_importance.get ⟨i, hi2⟩).importance } := by
    simp only [renderResults]
    exact List.get_mapIdx r.feature_importance _ i hi2
  have hzero : (r.feature_importance.get ⟨i, hi2⟩).importance = 0 :=
    h0 _ (r.feature_importance.get_mem _ _)
  have hne : r.feature_importance.map (fun f => f.importance) ≠ [] := by
    intro hcon
    have h1 : r.feature_importance.length = 0 := by
      simpa using congrArg List.length hcon
    omega
  have hmax : JSNum.jsMax (r.feature_importance.map (fun f => f.importance))
      = JSNum.fin 0 := by
    refine jsMax_all_zero _ hne ?_
    intro x hx
    rcases List.mem_map.1 hx with ⟨fi, hfi, hfx⟩
    rw [← hfx]
    exact h0 fi hfi
  rw [hrow]
  simp only [List.get_eq_getElem] at hzero
  simp [hzero, hmax, JSNum.jsDiv, JSNum.mul100, JSNum.isFinite]

/-- Witness for C10 at a concrete input. -/
theorem c10_zero_importance_width_nan_witness :
    ((renderResults zeroResults).table.get
        ⟨0, by simp [renderResults, zeroResults]⟩).fillWidthPct = JSNum.nan :=
  (c10_zero_importance_width_nan zeroResults (by decide) 0
    (by simp [renderResults, zeroResults])).1
